import Mathlib

/-!
Verification of the AI gateway's routing-and-execution pipeline.

The definitions below are a shallow embedding of the Python sources:
`gateway/routing/router.py` (RoutingEngine and the four routing strategies),
`gateway/core/executor.py` (RequestExecutor and its usage accounting), and
`gateway/providers/anthropic.py` (upstream error classification).  Python
floats are modelled as rationals, the global `random` module as an explicit
stream of draws threaded through each operation, and raised exceptions as
`Except` error values.
-/

namespace AIGateway

/-! ### Error taxonomy (gateway/errors/exceptions.py)

Each exception carries its message; `str(e)` is `GatewayError.message`.
`pyError` stands for any non-gateway Python exception (for example the
`ZeroDivisionError` that percentage normalization can raise). -/

inductive GatewayError where
  | configurationError (message : String)
  | providerError (message : String)
  | modelNotFoundError (message : String)
  | providerNotFoundError (message : String)
  | routerError (message : String)
  | executionError (message : String)
  | authenticationError (message : String)
  | rateLimitExceededError (message : String)
  | quotaExceededError (message : String)
  | pyError (message : String)
  deriving DecidableEq, Repr

def GatewayError.message : GatewayError → String
  | .configurationError m => m
  | .providerError m => m
  | .modelNotFoundError m => m
  | .providerNotFoundError m => m
  | .routerError m => m
  | .executionError m => m
  | .authenticationError m => m
  | .rateLimitExceededError m => m
  | .quotaExceededError m => m
  | .pyError m => m

/-! ### Data model (gateway/config/models.py, gateway/core/types.py) -/

/-- `InferenceProviderConfig`: provider name plus upstream model name
(the two fields the routing pipeline reads). -/
structure InferenceProviderConfig where
  provider : String
  model_name : String
  deriving DecidableEq, Repr

/-- `ModelDefinition`, restricted to the fields the routing pipeline reads:
the gateway-side model id and the inference provider configuration. -/
structure ModelDefinition where
  model : String
  inference_provider : InferenceProviderConfig
  deriving DecidableEq, Repr

/-- The model registry's `get_model`: the registry is a dict keyed by model
id, filled in list order, so a lookup returns the last definition with the
given id.  -/
def registryLookup (models : List ModelDefinition) (name : String) : Option ModelDefinition :=
  models.reverse.find? (fun m => m.model == name)

/-- A routing `Target`: in the source a dict; the pipeline reads its
"model" and "provider" keys. -/
structure Target where
  model : String
  provider : String
  deriving DecidableEq, Repr, Inhabited

/-- `MetricSelector` for the optimized strategy. -/
structure MetricSelector where
  name : String
  order : String
  deriving DecidableEq, Repr

/-- The `RouterStrategy` union: the `type` literal tag of each pydantic
variant determines the payload, so the union is a tagged variant. -/
inductive RouterStrategy where
  | fallback
  | percentage (targets_percentages : List ℚ)
  | random
  | optimized (metric : MetricSelector)
  deriving DecidableEq, Repr

/-- `Router` configuration: name, strategy and ordered target list. -/
structure Router where
  name : String
  strategy : RouterStrategy
  targets : List Target
  deriving DecidableEq, Repr

/-- A chat message (role and textual content). -/
structure ChatMessage where
  role : String
  content : String
  deriving DecidableEq, Repr

/-- `ChatCompletionRequest`, restricted to the fields the pipeline reads. -/
structure ChatCompletionRequest where
  model : String
  messages : List ChatMessage
  stream : Bool
  deriving DecidableEq, Repr

/-! ### Randomness

The Python `random` module is modelled as an explicit source of draws:
`uniforms` feeds `random.uniform(0, 100)` and `choices` feeds
`random.choice` (as an index into the list chosen from). -/

structure RNG where
  uniforms : List ℚ
  choices : List Nat
  deriving DecidableEq, Repr

/-- Consume one `random.uniform(0, 100)` draw. -/
def RNG.drawUniform : RNG → ℚ × RNG
  | ⟨[], cs⟩ => (0, ⟨[], cs⟩)
  | ⟨u :: us, cs⟩ => (u, ⟨us, cs⟩)

/-- Consume one `random.choice` draw from a list of length `n`, as an
index below `n`. -/
def RNG.drawChoice : RNG → Nat → Nat × RNG
  | ⟨us, []⟩, _ => (0, ⟨us, []⟩)
  | ⟨us, c :: cs⟩, n => (c % n, ⟨us, cs⟩)

/-! ### String primitives

Python string operations, modelled structurally over the character list so
that concrete instances evaluate. -/

/-- Decide whether `needle` occurs as a contiguous run at the head of
`haystack`. -/
def leadsChars : List Char → List Char → Bool
  | [], _ => true
  | _ :: _, [] => false
  | c :: cs, d :: ds => c = d && leadsChars cs ds

/-- Decide whether `needle` occurs as a contiguous run anywhere in
`haystack`. -/
def hasSubChars (needle : List Char) : List Char → Bool
  | [] => leadsChars needle []
  | d :: ds => leadsChars needle (d :: ds) || hasSubChars needle ds

/-- Python's `needle in haystack` on strings. -/
def containsSub (haystack needle : String) : Bool :=
  hasSubChars needle.toList haystack.toList

/-- Python's `s.startswith(pre)`. -/
def strStarts (s pre : String) : Bool :=
  leadsChars pre.toList s.toList

/-- Python's `s.lower()` (ASCII case folding, which covers every message
the adapter inspects). -/
def strLower (s : String) : String :=
  ⟨s.toList.map Char.toLower⟩

/-- Python's `len(s.split())`: the number of maximal non-empty runs of
non-whitespace characters.  The Boolean argument tracks whether the scan
is inside a word. -/
def wordsAux : List Char → Bool → Nat
  | [], _ => 0
  | c :: cs, inWord =>
      if c.isWhitespace then wordsAux cs false
      else (if inWord then 0 else 1) + wordsAux cs true

/-- Python's `len(s.split())`. -/
def wordCount (s : String) : Nat :=
  wordsAux s.toList false

/-! ### Routing engine (gateway/routing/router.py) -/

/-- `RoutingEngine`: holds the router list; `_router_map` is a dict built
in list order, so lookups return the last router with a given name. -/
structure RoutingEngine where
  routers : List Router
  deriving Repr

/-- `RoutingEngine.get_router`. -/
def RoutingEngine.get_router (engine : RoutingEngine) (name : String) : Option Router :=
  engine.routers.reverse.find? (fun r => r.name == name)

/-- `_apply_fallback_strategy` (router.py lines 145-167): return the first
target; raise `RouterError` when the target list is empty. -/
def applyFallbackStrategy (router : Router) (request : ChatCompletionRequest) (g : RNG) :
    Except GatewayError Target × RNG :=
  if router.targets.isEmpty then
    (.error (.routerError ("Router " ++ router.name ++ " has no targets")), g)
  else
    (.ok (router.targets.headD default), g)

/-- The cumulative walk of `_apply_percentage_strategy` (router.py lines
207-212): accumulate weights in order and return the first target whose
running total is at least the draw. -/
def percentageWalk (pairs : List (Target × ℚ)) (rand_val cumulative : ℚ) : Option Target :=
  match pairs with
  | [] => none
  | (t, pct) :: rest =>
      if rand_val ≤ cumulative + pct then some t
      else percentageWalk rest rand_val (cumulative + pct)

/-- Lines 200-203 of router.py: use the weights as given when they sum to
100, otherwise rescale each by `100 / total`. -/
def effectiveWeights (tps : List ℚ) : List ℚ :=
  if tps.sum = 100 then tps else tps.map (fun p => p * 100 / tps.sum)

/-- `_apply_percentage_strategy` (router.py lines 169-215).  When the
weights sum to 0 the Python normalization raises `ZeroDivisionError`,
modelled as a `pyError`. -/
def applyPercentageStrategy (router : Router) (tps : List ℚ)
    (request : ChatCompletionRequest) (g : RNG) : Except GatewayError Target × RNG :=
  if router.targets.isEmpty then
    (.error (.routerError ("Router " ++ router.name ++ " has no targets")), g)
  else if tps.length ≠ router.targets.length then
    (.error (.routerError "Number of percentages does not match number of targets"), g)
  else if tps.sum ≠ 100 ∧ tps.sum = 0 then
    (.error (.pyError "division by zero"), g)
  else
    let (rand_val, g1) := g.drawUniform
    match percentageWalk (router.targets.zip (effectiveWeights tps)) rand_val 0 with
    | some t => (.ok t, g1)
    | none => (.ok (router.targets.getLastD default), g1)

/-- `_apply_random_strategy` (router.py lines 217-237): `random.choice`
over the targets. -/
def applyRandomStrategy (router : Router) (request : ChatCompletionRequest) (g : RNG) :
    Except GatewayError Target × RNG :=
  if router.targets.isEmpty then
    (.error (.routerError ("Router " ++ router.name ++ " has no targets")), g)
  else
    let (i, g1) := g.drawChoice router.targets.length
    (.ok (router.targets.getD i default), g1)

/-- `_apply_optimized_strategy` (router.py lines 239-269): without a
metrics system it logs a warning and falls back to `random.choice`. -/
def applyOptimizedStrategy (router : Router) (metric : MetricSelector)
    (request : ChatCompletionRequest) (g : RNG) : Except GatewayError Target × RNG :=
  if router.targets.isEmpty then
    (.error (.routerError ("Router " ++ router.name ++ " has no targets")), g)
  else
    let (i, g1) := g.drawChoice router.targets.length
    (.ok (router.targets.getD i default), g1)

/-- `_apply_routing_strategy` (router.py lines 105-143): reject empty
target lists, dispatch on the strategy tag, and wrap any error raised by a
strategy into a `RouterError` (the `except Exception` block at lines
141-143). -/
def applyRoutingStrategy (router : Router) (request : ChatCompletionRequest) (g : RNG) :
    Except GatewayError Target × RNG :=
  if router.targets.isEmpty then
    (.error (.routerError ("Router " ++ router.name ++ " has no targets")), g)
  else
    let res :=
      match router.strategy with
      | .fallback => applyFallbackStrategy router request g
      | .percentage tps => applyPercentageStrategy router tps request g
      | .random => applyRandomStrategy router request g
      | .optimized m => applyOptimizedStrategy router m request g
    match res with
    | (.error e, g1) => (.error (.routerError ("Routing strategy error: " ++ e.message)), g1)
    | (.ok t, g1) => (.ok t, g1)

/-- `route_chat_request` (router.py lines 63-103).  A model id of the form
"router/NAME" resolves through the named router; `model_name.split("/", 1)[1]`
is everything after the leading "router/", i.e. `String.drop 7` under the
`startsWith` guard.  Any other id is looked up directly in the catalog. -/
def routeChatRequest (engine : RoutingEngine) (models : List ModelDefinition)
    (request : ChatCompletionRequest) (g : RNG) : Except GatewayError Target × RNG :=
  if strStarts request.model "router/" then
    let routerName := request.model.drop 7
    match engine.get_router routerName with
    | none => (.error (.routerError ("Router not found: " ++ routerName)), g)
    | some router => applyRoutingStrategy router request g
  else
    match registryLookup models request.model with
    | none => (.error (.modelNotFoundError ("Model not found: " ++ request.model)), g)
    | some m => (.ok ⟨m.inference_provider.model_name, m.inference_provider.provider⟩, g)

/-! ### Executor data (gateway/core/types.py, gateway/usage/storage.py) -/

/-- Token usage reported by a provider. -/
structure Usage where
  prompt_tokens : Nat
  completion_tokens : Nat
  total_tokens : Nat
  deriving DecidableEq, Repr

/-- A chat completion response, restricted to the field the executor's
accounting reads: its optional `usage`. -/
structure ChatCompletionResponse where
  usage : Option Usage
  deriving DecidableEq, Repr

/-- One row handed to `usage_storage.record_usage`, restricted to the
fields the claims mention. -/
structure UsageRecord where
  provider : String
  model : String
  input_tokens : Nat
  output_tokens : Nat
  total_tokens : Nat
  success : Bool
  error : Option String
  deriving DecidableEq, Repr

/-- Python's `x or y` on an optional string: `None` and the empty string
are falsy. -/
def pyOrStr (v : Option String) (dflt : String) : String :=
  match v with
  | none => dflt
  | some s => if s.isEmpty then dflt else s

/-- The failure record the executor writes: zero token counts,
`success=False` and the error message. -/
def failRecord (provider model err : String) : UsageRecord :=
  ⟨provider, model, 0, 0, 0, false, some err⟩

instance {ε α : Type} [DecidableEq ε] [DecidableEq α] : DecidableEq (Except ε α) := fun a b =>
  match a, b with
  | .ok x, .ok y => decidable_of_iff (x = y) ⟨fun h => by rw [h], fun h => by injection h⟩
  | .ok _, .error _ => isFalse (fun h => Except.noConfusion h)
  | .error _, .ok _ => isFalse (fun h => Except.noConfusion h)
  | .error x, .error y => decidable_of_iff (x = y) ⟨fun h => by rw [h], fun h => by injection h⟩

/-- Result of one executor run: the returned or raised outcome, plus the
usage records written, in order. -/
structure ExecOutcome (α : Type) where
  result : Except GatewayError α
  records : List UsageRecord
  deriving DecidableEq, Repr

/-! ### Request executor (gateway/core/executor.py)

The executor is modelled for a fresh `RequestContext` (as built per request
by the API layer): `target_model` and `target_provider` start as `None` and
are set by `context.with_target` once routing succeeds.  The provider
registry is modelled by the list of provider names it can resolve, and the
provider adapter by a call oracle mapping provider name and request to the
adapter's outcome. -/

/-- `execute_chat_completion` (executor.py lines 100-223). -/
def executeChatCompletion (engine : RoutingEngine) (models : List ModelDefinition)
    (providers : List String)
    (call : String → ChatCompletionRequest → Except GatewayError ChatCompletionResponse)
    (hasStorage : Bool) (request : ChatCompletionRequest) (g : RNG) :
    ExecOutcome ChatCompletionResponse × RNG :=
  match routeChatRequest engine models request g with
  | (.error e, g1) =>
      (⟨.error e,
        if hasStorage then
          [failRecord (pyOrStr none "unknown") (pyOrStr none request.model) e.message]
        else []⟩, g1)
  | (.ok target, g1) =>
      let target_model := some target.model
      let target_provider := some target.provider
      if target.provider.isEmpty then
        let e : GatewayError :=
          .providerNotFoundError ("No provider specified for model " ++ target.model)
        (⟨.error e,
          if hasStorage then
            [failRecord (pyOrStr target_provider "unknown")
              (pyOrStr target_model request.model) e.message]
          else []⟩, g1)
      else if providers.contains target.provider then
        match call target.provider ⟨target.model, request.messages, request.stream⟩ with
        | .error e =>
            (⟨.error e,
              if hasStorage then
                [failRecord (pyOrStr target_provider "unknown")
                  (pyOrStr target_model request.model) e.message]
              else []⟩, g1)
        | .ok response =>
            (⟨.ok response,
              if hasStorage then
                match response.usage with
                | some u =>
                    [⟨target.provider, target.model, u.prompt_tokens,
                      u.completion_tokens, u.total_tokens, true, none⟩]
                | none => []
              else []⟩, g1)
      else
        let e : GatewayError := .providerNotFoundError ("Provider not found: " ++ target.provider)
        (⟨.error e,
          if hasStorage then
            [failRecord (pyOrStr target_provider "unknown")
              (pyOrStr target_model request.model) e.message]
          else []⟩, g1)

/-- One choice of a streaming chunk; `delta.get("content")`. -/
structure StreamChoice where
  deltaContent : Option String
  deriving DecidableEq, Repr

/-- One streaming chunk as the executor sees it. -/
structure StreamChunk where
  choices : List StreamChoice
  deriving DecidableEq, Repr

/-- Output-token estimate the streaming executor accumulates per chunk
(executor.py lines 287-290): per delta with truthy content,
`len(content.split()) // 3`. -/
def chunkOutputTokens (chunk : StreamChunk) : Nat :=
  (chunk.choices.map (fun choice =>
    match choice.deltaContent with
    | some s => if s.isEmpty then 0 else wordCount s / 3
    | none => 0)).sum

/-- Input-token estimate after a stream completes (executor.py line 296):
the summed word counts of the request messages, integer-divided by 3. -/
def streamInputTokens (request : ChatCompletionRequest) : Nat :=
  ((request.messages.map (fun m => wordCount m.content)).sum) / 3

/-- Result of one streaming executor run: chunks yielded to the caller
before completion or failure, outcome, and records written. -/
structure StreamOutcome where
  chunks : List StreamChunk
  result : Except GatewayError Unit
  records : List UsageRecord
  deriving DecidableEq, Repr

/-- `execute_streaming_chat_completion` (executor.py lines 225-354).  The
upstream stream is modelled as the chunks it yields followed by an
optional error that terminates it. -/
def executeStreamingChatCompletion (engine : RoutingEngine) (models : List ModelDefinition)
    (providers : List String)
    (streamCall : String → ChatCompletionRequest → List StreamChunk × Option GatewayError)
    (hasStorage : Bool) (request : ChatCompletionRequest) (g : RNG) :
    StreamOutcome × RNG :=
  match routeChatRequest engine models request g with
  | (.error e, g1) =>
      (⟨[], .error e,
        if hasStorage then
          [failRecord (pyOrStr none "unknown") (pyOrStr none request.model) e.message]
        else []⟩, g1)
  | (.ok target, g1) =>
      let target_model := some target.model
      let target_provider := some target.provider
      if target.provider.isEmpty then
        let e : GatewayError :=
          .providerNotFoundError ("No provider specified for model " ++ target.model)
        (⟨[], .error e,
          if hasStorage then
            [failRecord (pyOrStr target_provider "unknown")
              (pyOrStr target_model request.model) e.message]
          else []⟩, g1)
      else if providers.contains target.provider then
        let st := streamCall target.provider ⟨target.model, request.messages, true⟩
        let output_tokens := (st.1.map chunkOutputTokens).sum
        match st.2 with
        | some e =>
            (⟨st.1, .error e,
              if hasStorage then
                [failRecord (pyOrStr target_provider "unknown")
                  (pyOrStr target_model request.model) e.message]
              else []⟩, g1)
        | none =>
            let input_tokens := streamInputTokens request
            (⟨st.1, .ok (),
              if hasStorage then
                [⟨target.provider, target.model, input_tokens, output_tokens,
                  input_tokens + output_tokens, true, none⟩]
              else []⟩, g1)
      else
        let e : GatewayError := .providerNotFoundError ("Provider not found: " ++ target.provider)
        (⟨[], .error e,
          if hasStorage then
            [failRecord (pyOrStr target_provider "unknown")
              (pyOrStr target_model request.model) e.message]
          else []⟩, g1)

/-- An embeddings request, restricted to the fields the executor reads. -/
structure EmbeddingRequest where
  model : String
  input : List String
  deriving DecidableEq, Repr

/-- An embeddings response: optional usage. -/
structure EmbeddingResponse where
  usage : Option Usage
  deriving DecidableEq, Repr

/-- `execute_embeddings` (executor.py lines 356-460).  No routing engine is
involved and `context.with_target` is never called, so `target_model` and
`target_provider` stay `None` for the whole call. -/
def executeEmbeddings (models : List ModelDefinition) (providers : List String)
    (call : String → EmbeddingRequest → Except GatewayError EmbeddingResponse)
    (hasStorage : Bool) (request : EmbeddingRequest) : ExecOutcome EmbeddingResponse :=
  match registryLookup models request.model with
  | none =>
      let e : GatewayError := .modelNotFoundError ("Model not found: " ++ request.model)
      ⟨.error e,
        if hasStorage then [failRecord (pyOrStr none "unknown") request.model e.message]
        else []⟩
  | some mdef =>
      let pname := mdef.inference_provider.provider
      if providers.contains pname then
        match call pname request with
        | .error e =>
            ⟨.error e,
              if hasStorage then [failRecord (pyOrStr none "unknown") request.model e.message]
              else []⟩
        | .ok response =>
            ⟨.ok response,
              if hasStorage then
                match response.usage with
                | some u => [⟨pname, request.model, u.prompt_tokens, 0, u.total_tokens, true, none⟩]
                | none => []
              else []⟩
      else
        let e : GatewayError := .providerNotFoundError ("Provider not found: " ++ pname)
        ⟨.error e,
          if hasStorage then [failRecord (pyOrStr none "unknown") request.model e.message]
          else []⟩

/-- An image generation request, restricted to the fields the executor
reads. -/
structure ImageGenerationRequest where
  model : String
  prompt : String
  deriving DecidableEq, Repr

/-- An image generation response: the generated image payloads. -/
structure ImageGenerationResponse where
  data : List String
  deriving DecidableEq, Repr

/-- `execute_image_generation` (executor.py lines 462-570).  Like
embeddings, `target_model`/`target_provider` are never set.  On success it
always records an estimate of `len(prompt.split()) // 3` input tokens. -/
def executeImageGeneration (models : List ModelDefinition) (providers : List String)
    (call : String → ImageGenerationRequest → Except GatewayError ImageGenerationResponse)
    (hasStorage : Bool) (request : ImageGenerationRequest) : ExecOutcome ImageGenerationResponse :=
  match registryLookup models request.model with
  | none =>
      let e : GatewayError := .modelNotFoundError ("Model not found: " ++ request.model)
      ⟨.error e,
        if hasStorage then [failRecord (pyOrStr none "unknown") request.model e.message]
        else []⟩
  | some mdef =>
      let pname := mdef.inference_provider.provider
      if providers.contains pname then
        match call pname request with
        | .error e =>
            ⟨.error e,
              if hasStorage then [failRecord (pyOrStr none "unknown") request.model e.message]
              else []⟩
        | .ok response =>
            let est := wordCount request.prompt / 3
            ⟨.ok response,
              if hasStorage then [⟨pname, request.model, est, 0, est, true, none⟩]
              else []⟩
      else
        let e : GatewayError := .providerNotFoundError ("Provider not found: " ++ pname)
        ⟨.error e,
          if hasStorage then [failRecord (pyOrStr none "unknown") request.model e.message]
          else []⟩

/-! ### Anthropic adapter error classification (gateway/providers/anthropic.py) -/

/-- The `except` classification in `create_chat_completion` and
`create_streaming_chat_completion` (anthropic.py lines 164-173 and
329-338): inspect `str(e).lower()` for credential rejection, then
throttling, and fall through to `ProviderError`. -/
def classifyAnthropicError (error_message : String) : GatewayError :=
  if containsSub (strLower error_message) "authentication"
      || containsSub (strLower error_message) "api key" then
    .authenticationError ("Anthropic authentication error: " ++ error_message)
  else if containsSub (strLower error_message) "rate limit" then
    .rateLimitExceededError ("Anthropic rate limit exceeded: " ++ error_message)
  else
    .providerError ("Anthropic error: " ++ error_message)

/-- The whole `try` body of the Anthropic chat completion calls: a
successful upstream outcome converts to the canonical response, any raised
exception is classified from its message. -/
def anthropicChatCompletionResult {α : Type} (upstream : Except String α) :
    Except GatewayError α :=
  match upstream with
  | .ok r => .ok r
  | .error msg => .error (classifyAnthropicError msg)

/-! ### Shared lemmas -/

/-- A `drawChoice` index is always below the list length it draws from. -/
theorem RNG.drawChoice_lt (g : RNG) (n : Nat) (hn : 0 < n) : (g.drawChoice n).1 < n := by
  rcases g with ⟨us, _ | ⟨c, cs⟩⟩
  · simpa [RNG.drawChoice] using hn
  · simpa [RNG.drawChoice] using Nat.mod_lt c hn

/-- A non-empty list is not `isEmpty`. -/
theorem isEmpty_false_of_ne_nil {α : Type} {l : List α} (h : l ≠ []) : l.isEmpty = false := by
  rcases l with _ | ⟨a, t⟩
  · exact absurd rfl h
  · rfl

/-! ### Claim theorems: routing -/

/-- C1: every request whose model id does not carry the "router/" prefix
resolves directly through the catalog: a hit returns exactly the entry's
upstream model name and provider, a miss raises `ModelNotFoundError`. -/
theorem direct_requests_resolve_from_catalog
    (engine : RoutingEngine) (models : List ModelDefinition)
    (request : ChatCompletionRequest) (g : RNG)
    (h : strStarts request.model "router/" = false) :
    (∀ m, registryLookup models request.model = some m →
      (routeChatRequest engine models request g).1 =
        .ok ⟨m.inference_provider.model_name, m.inference_provider.provider⟩) ∧
    (registryLookup models request.model = none →
      (routeChatRequest engine models request g).1 =
        .error (.modelNotFoundError ("Model not found: " ++ request.model))) := by
  constructor
  · intro m hm
    simp [routeChatRequest, h, hm]
  · intro hm
    simp [routeChatRequest, h, hm]

/-- Witness for C1: a one-entry catalog resolves its entry and the router
engine is never consulted. -/
theorem direct_requests_resolve_from_catalog_witness :
    (routeChatRequest ⟨[]⟩ [⟨"gpt", ⟨"openai", "gpt-4o"⟩⟩] ⟨"gpt", [], false⟩ ⟨[], []⟩).1 =
      .ok ⟨"gpt-4o", "openai"⟩ :=
  (direct_requests_resolve_from_catalog ⟨[]⟩ [⟨"gpt", ⟨"openai", "gpt-4o"⟩⟩]
    ⟨"gpt", [], false⟩ ⟨[], []⟩ (by decide)).1 ⟨"gpt", ⟨"openai", "gpt-4o"⟩⟩ rfl

/-- C5: a router with an empty target list makes every strategy, the
strategy dispatcher, and `route_chat_request` through that router raise
`RouterError`; no target is ever produced. -/
theorem empty_targets_always_router_error
    (router : Router) (engine : RoutingEngine) (models : List ModelDefinition)
    (request : ChatCompletionRequest) (g : RNG)
    (h : router.targets = []) :
    (applyRoutingStrategy router request g).1 =
      .error (.routerError ("Router " ++ router.name ++ " has no targets")) ∧
    (applyFallbackStrategy router request g).1 =
      .error (.routerError ("Router " ++ router.name ++ " has no targets")) ∧
    (∀ tps, (applyPercentageStrategy router tps request g).1 =
      .error (.routerError ("Router " ++ router.name ++ " has no targets"))) ∧
    (applyRandomStrategy router request g).1 =
      .error (.routerError ("Router " ++ router.name ++ " has no targets")) ∧
    (∀ m, (applyOptimizedStrategy router m request g).1 =
      .error (.routerError ("Router " ++ router.name ++ " has no targets"))) ∧
    (strStarts request.model "router/" = true →
      engine.get_router (request.model.drop 7) = some router →
      (routeChatRequest engine models request g).1 =
        .error (.routerError ("Router " ++ router.name ++ " has no targets"))) := by
  refine ⟨?_, ?_, ?_, ?_, ?_, ?_⟩
  · simp [applyRoutingStrategy, h]
  · simp [applyFallbackStrategy, h]
  · intro tps; simp [applyPercentageStrategy, h]
  · simp [applyRandomStrategy, h]
  · intro m; simp [applyOptimizedStrategy, h]
  · intro hpref hget
    simp [routeChatRequest, hpref, hget, applyRoutingStrategy, h]

/-- Witness for C5: a zero-target random router reached through
`route_chat_request`. -/
theorem empty_targets_always_router_error_witness :
    (routeChatRequest ⟨[⟨"r", .random, []⟩]⟩ [] ⟨"router/r", [], false⟩ ⟨[], []⟩).1 =
      .error (.routerError ("Router " ++ "r" ++ " has no targets")) :=
  (empty_targets_always_router_error ⟨"r", .random, []⟩ ⟨[⟨"r", .random, []⟩]⟩ []
    ⟨"router/r", [], false⟩ ⟨[], []⟩ rfl).2.2.2.2.2 (by decide) rfl

/-- C6: a fallback router with targets always resolves to its first
target, for every request and every state of the random source, and the
random source is left untouched. -/
theorem fallback_selects_first_target
    (router : Router) (hs : router.strategy = .fallback) (hne : router.targets ≠ []) :
    ∀ (request : ChatCompletionRequest) (g : RNG),
      applyRoutingStrategy router request g = (.ok (router.targets.headD default), g) := by
  intro request g
  have hemp := isEmpty_false_of_ne_nil hne
  simp [applyRoutingStrategy, applyFallbackStrategy, hs, hemp]

/-- Witness for C6: a two-target fallback router returns the first target
for two distinct requests and random states. -/
theorem fallback_selects_first_target_witness :
    applyRoutingStrategy ⟨"f", .fallback, [⟨"a", "pa"⟩, ⟨"b", "pb"⟩]⟩ ⟨"router/f", [], false⟩
        ⟨[7], [3]⟩ =
      (.ok ⟨"a", "pa"⟩, ⟨[7], [3]⟩) ∧
    applyRoutingStrategy ⟨"f", .fallback, [⟨"a", "pa"⟩, ⟨"b", "pb"⟩]⟩ ⟨"other", [⟨"user", "x"⟩], true⟩
        ⟨[], []⟩ =
      (.ok ⟨"a", "pa"⟩, ⟨[], []⟩) :=
  ⟨fallback_selects_first_target ⟨"f", .fallback, [⟨"a", "pa"⟩, ⟨"b", "pb"⟩]⟩ rfl
      (by decide) ⟨"router/f", [], false⟩ ⟨[7], [3]⟩,
    fallback_selects_first_target ⟨"f", .fallback, [⟨"a", "pa"⟩, ⟨"b", "pb"⟩]⟩ rfl
      (by decide) ⟨"other", [⟨"user", "x"⟩], true⟩ ⟨[], []⟩⟩

/-- C7: a percentage router whose weight list length differs from its
target list length raises `RouterError` and leaves the random source
untouched: no draw is taken before the error. -/
theorem percentage_mismatch_errors_before_draw
    (router : Router) (tps : List ℚ) (request : ChatCompletionRequest) (g : RNG)
    (hs : router.strategy = .percentage tps)
    (hlen : tps.length ≠ router.targets.length) :
    (∃ msg, (applyRoutingStrategy router request g).1 = .error (.routerError msg)) ∧
    (applyRoutingStrategy router request g).2 = g := by
  rcases hemp : router.targets.isEmpty with hfalse | htrue
  · have : applyRoutingStrategy router request g =
        (.error (.routerError ("Routing strategy error: " ++
          "Number of percentages does not match number of targets")), g) := by
      simp [applyRoutingStrategy, applyPercentageStrategy, hs, hemp, hlen,
        GatewayError.message]
    rw [this]
    exact ⟨⟨_, rfl⟩, rfl⟩
  · have : applyRoutingStrategy router request g =
        (.error (.routerError ("Router " ++ router.name ++ " has no targets")), g) := by
      simp [applyRoutingStrategy, hemp]
    rw [this]
    exact ⟨⟨_, rfl⟩, rfl⟩

/-- Witness for C7: three weights against two targets; the uniform stream
is returned unconsumed. -/
theorem percentage_mismatch_errors_before_draw_witness :
    (∃ msg, (applyRoutingStrategy ⟨"p", .percentage [50, 30, 20], [⟨"a", "pa"⟩, ⟨"b", "pb"⟩]⟩
      ⟨"router/p", [], false⟩ ⟨[42], [7]⟩).1 = .error (.routerError msg)) ∧
    (applyRoutingStrategy ⟨"p", .percentage [50, 30, 20], [⟨"a", "pa"⟩, ⟨"b", "pb"⟩]⟩
      ⟨"router/p", [], false⟩ ⟨[42], [7]⟩).2 = ⟨[42], [7]⟩ :=
  percentage_mismatch_errors_before_draw
    ⟨"p", .percentage [50, 30, 20], [⟨"a", "pa"⟩, ⟨"b", "pb"⟩]⟩ [50, 30, 20]
    ⟨"router/p", [], false⟩ ⟨[42], [7]⟩ rfl (by decide)

/-- C8: the random strategy and the un-instrumented optimized strategy
always return one of the router's own targets. -/
theorem random_optimized_select_member
    (router : Router) (request : ChatCompletionRequest) (g : RNG)
    (hne : router.targets ≠ [])
    (hs : router.strategy = .random ∨ ∃ m, router.strategy = .optimized m) :
    ∃ t, t ∈ router.targets ∧ (applyRoutingStrategy router request g).1 = .ok t := by
  have hemp := isEmpty_false_of_ne_nil hne
  have hlen : 0 < router.targets.length := List.length_pos.mpr hne
  have hidx := RNG.drawChoice_lt g router.targets.length hlen
  refine ⟨router.targets.getD (g.drawChoice router.targets.length).1 default, ?_, ?_⟩
  · rw [List.getD_eq_getElem _ _ hidx]
    exact List.getElem_mem hidx
  · rcases hs with hs | ⟨m, hs⟩
    · simp [applyRoutingStrategy, applyRandomStrategy, hs, hemp]
    · simp [applyRoutingStrategy, applyOptimizedStrategy, hs, hemp]

/-- Witness for C8: an optimized router with two targets selects the
second one for the concrete draw 5 (5 mod 2 = 1), a member of the list. -/
theorem random_optimized_select_member_witness :
    ∃ t, t ∈ [Target.mk "a" "pa", Target.mk "b" "pb"] ∧
      (applyRoutingStrategy ⟨"o", .optimized ⟨"latency", "asc"⟩, [⟨"a", "pa"⟩, ⟨"b", "pb"⟩]⟩
        ⟨"router/o", [], false⟩ ⟨[], [5]⟩).1 = .ok t :=
  random_optimized_select_member
    ⟨"o", .optimized ⟨"latency", "asc"⟩, [⟨"a", "pa"⟩, ⟨"b", "pb"⟩]⟩
    ⟨"router/o", [], false⟩ ⟨[], [5]⟩ (by decide) (.inr ⟨⟨"latency", "asc"⟩, rfl⟩)

/-- Multiplying every element of a list by a constant multiplies its sum. -/
theorem listSum_mul_left (tps : List ℚ) (c : ℚ) :
    (tps.map (fun p => c * p)).sum = c * tps.sum := by
  induction tps with
  | nil => simp
  | cons a t ih => simp [ih]; ring

/-- Multiplying every element of a list by a constant on the right. -/
theorem listSum_mul_right (tps : List ℚ) (c : ℚ) :
    (tps.map (fun p => p * c)).sum = tps.sum * c := by
  induction tps with
  | nil => simp
  | cons a t ih => simp [ih]; ring

/-- `effectiveWeights` keeps the length of the weight list. -/
theorem effectiveWeights_length (tps : List ℚ) :
    (effectiveWeights tps).length = tps.length := by
  unfold effectiveWeights
  split
  · rfl
  · exact List.length_map _ _

/-- Whenever the weights do not sum to zero, the branch of router.py lines
200-203 produces exactly the proportional rescaling by `100 / total`. -/
theorem effectiveWeights_eq_normalized (tps : List ℚ) (ht : tps.sum ≠ 0) :
    effectiveWeights tps = tps.map (fun p => p * 100 / tps.sum) := by
  unfold effectiveWeights
  split
  case isTrue h100 =>
    rw [h100]
    have hfun : (fun p : ℚ => p * 100 / 100) = id := funext fun p => by norm_num
    rw [hfun, List.map_id]
  case isFalse h100 => rfl

/-- The effective weights always sum to 100 when the raw weights have a
non-zero sum. -/
theorem effectiveWeights_sum (tps : List ℚ) (ht : tps.sum ≠ 0) :
    (effectiveWeights tps).sum = 100 := by
  rw [effectiveWeights_eq_normalized tps ht]
  have hfun : (fun p : ℚ => p * 100 / tps.sum) = fun p => p * (100 / tps.sum) :=
    funext fun p => by ring
  rw [hfun, listSum_mul_right]
  field_simp

/-- Scaling every weight by a non-zero constant leaves the effective
weights unchanged. -/
theorem effectiveWeights_scale (tps : List ℚ) (c : ℚ) (hc : c ≠ 0) (ht : tps.sum ≠ 0) :
    effectiveWeights (tps.map (fun p => c * p)) = effectiveWeights tps := by
  have ht2 : (tps.map (fun p => c * p)).sum ≠ 0 := by
    rw [listSum_mul_left]
    exact mul_ne_zero hc ht
  rw [effectiveWeights_eq_normalized _ ht2, effectiveWeights_eq_normalized _ ht,
    listSum_mul_left, List.map_map]
  have hfun : ((fun p : ℚ => p * 100 / (c * tps.sum)) ∘ fun p : ℚ => c * p) =
      fun p : ℚ => p * 100 / tps.sum := by
    funext p
    simp only [Function.comp]
    field_simp
    ring
  rw [hfun]

/-- The cumulative walk selects the first index whose running total
reaches the draw: starting the accumulator at `c`, the result is the
first `i` with `d ≤ c + (ws.take (i + 1)).sum`. -/
theorem percentageWalk_characterization :
    ∀ (ts : List Target) (ws : List ℚ) (d c : ℚ), ws.length = ts.length →
    percentageWalk (ts.zip ws) d c =
      ((List.range ts.length).find? (fun i => decide (d ≤ c + (ws.take (i + 1)).sum))).map
        (fun i => ts.getD i default)
  | [], ws, d, c, h => by simp [percentageWalk]
  | t :: ts, [], d, c, h => by simp at h
  | t :: ts, w :: ws, d, c, h => by
      have hlen : ws.length = ts.length := by simpa using h
      have ih := percentageWalk_characterization ts ws d (c + w) hlen
      have hzip : (t :: ts).zip (w :: ws) = (t, w) :: ts.zip ws := rfl
      rw [hzip]
      simp only [percentageWalk, List.length_cons, List.range_succ_eq_map, List.find?_cons]
      by_cases hd : d ≤ c + w
      · have hp : decide (d ≤ c + ((w :: ws).take (0 + 1)).sum) = true := by
          simp [hd]
        rw [hp]
        simp [hd, List.getD_cons_zero]
      · have hp : decide (d ≤ c + ((w :: ws).take (0 + 1)).sum) = false := by
          simp [hd]
        rw [hp, if_neg hd, ih]
        simp only [List.find?_map, Option.map_map]

        have hpred : ((fun i => decide (d ≤ c + ((w :: ws).take (i + 1)).sum)) ∘ Nat.succ) =
            fun i => decide (d ≤ c + w + (ws.take (i + 1)).sum) := by
          funext i
          simp only [Function.comp_apply, Nat.succ_eq_add_one, List.take_succ_cons,
            List.sum_cons, add_assoc]
        have hget : ((fun i => (t :: ts).getD i default) ∘ Nat.succ) =
            fun i => ts.getD i default := by
          funext i
          simp only [Function.comp_apply, Nat.succ_eq_add_one, List.getD_cons_succ]
        rw [hpred, hget]

/-- C3: a percentage router with targets and a matching number of weights
normalizes the weights to total 100, consumes exactly one uniform draw,
and returns the first target in order whose cumulative effective weight
reaches the draw, or the last target when no cumulative weight does. -/
theorem percentage_selection_algorithm
    (router : Router) (tps : List ℚ) (request : ChatCompletionRequest)
    (g : RNG) (d : ℚ) (rest : List ℚ)
    (hs : router.strategy = .percentage tps)
    (hne : router.targets ≠ [])
    (hlen : tps.length = router.targets.length)
    (htot : tps.sum ≠ 0)
    (hg : g.uniforms = d :: rest) :
    (effectiveWeights tps).sum = 100 ∧
    (applyRoutingStrategy router request g).2 = ⟨rest, g.choices⟩ ∧
    (applyRoutingStrategy router request g).1 =
      .ok (match (List.range router.targets.length).find?
              (fun i => decide (d ≤ ((effectiveWeights tps).take (i + 1)).sum)) with
           | some i => router.targets.getD i default
           | none => router.targets.getLastD default) := by
  refine ⟨effectiveWeights_sum tps htot, ?_⟩
  obtain ⟨us, cs⟩ := g
  simp only at hg
  subst hg
  have hemp := isEmpty_false_of_ne_nil hne
  have hwlen : (effectiveWeights tps).length = router.targets.length := by
    rw [effectiveWeights_length]
    exact hlen
  have hwalk := percentageWalk_characterization router.targets (effectiveWeights tps) d 0 hwlen
  simp only [zero_add] at hwalk
  unfold applyRoutingStrategy
  rw [hs]
  unfold applyPercentageStrategy
  simp only [hemp, Bool.false_eq_true, if_false, hlen, ne_eq, not_true_eq_false,
    htot, and_false, RNG.drawUniform]
  rw [hwalk]
  cases hfind : (List.range router.targets.length).find?
      (fun i => decide (d ≤ ((effectiveWeights tps).take (i + 1)).sum)) with
  | none => simp [hfind]
  | some i => simp [hfind]

/-- Witness for C3: weights 70/30 and draw 50 select the first target and
consume the single uniform draw. -/
theorem percentage_selection_algorithm_witness :
    (effectiveWeights [70, 30]).sum = 100 ∧
    (applyRoutingStrategy ⟨"p", .percentage [70, 30], [⟨"a", "pa"⟩, ⟨"b", "pb"⟩]⟩
        ⟨"router/p", [], false⟩ ⟨[50], []⟩).2 = ⟨[], []⟩ ∧
    (applyRoutingStrategy ⟨"p", .percentage [70, 30], [⟨"a", "pa"⟩, ⟨"b", "pb"⟩]⟩
        ⟨"router/p", [], false⟩ ⟨[50], []⟩).1 =
      .ok (match (List.range [Target.mk "a" "pa", Target.mk "b" "pb"].length).find?
              (fun i => decide ((50 : ℚ) ≤ ((effectiveWeights [70, 30]).take (i + 1)).sum)) with
           | some i => [Target.mk "a" "pa", Target.mk "b" "pb"].getD i default
           | none => [Target.mk "a" "pa", Target.mk "b" "pb"].getLastD default) :=
  percentage_selection_algorithm ⟨"p", .percentage [70, 30], [⟨"a", "pa"⟩, ⟨"b", "pb"⟩]⟩
    [70, 30] ⟨"router/p", [], false⟩ ⟨[50], []⟩ 50 [] rfl (by decide) rfl
    (by norm_num) rfl

/-- Scaling every percentage weight by a non-zero constant leaves the
whole percentage strategy outcome unchanged, router name and targets and
draw being equal. -/
theorem applyPercentageStrategy_scale
    (rname : String) (targets : List Target) (s1 s2 : RouterStrategy) (tps : List ℚ)
    (request : ChatCompletionRequest) (g : RNG) (c : ℚ) (hc : c ≠ 0) :
    applyPercentageStrategy ⟨rname, s1, targets⟩ (tps.map (fun p => c * p)) request g =
      applyPercentageStrategy ⟨rname, s2, targets⟩ tps request g := by
  unfold applyPercentageStrategy
  dsimp only
  rw [List.length_map, listSum_mul_left]
  by_cases hemp : targets.isEmpty
  · simp [hemp]
  · simp only [Bool.not_eq_true] at hemp
    by_cases hL : tps.length = targets.length
    · by_cases hS : tps.sum = 0
      · have h1 : c * tps.sum = 0 := by rw [hS, mul_zero]
        simp [hemp, hL, hS, h1]
      · have h1 : c * tps.sum ≠ 0 := mul_ne_zero hc hS
        have hW := effectiveWeights_scale tps c hc hS
        simp [hemp, hL, hS, h1, hW]
    · simp [hemp, hL]

/-- C10: for a fixed random draw, multiplying every entry of
`targets_percentages` by one positive constant never changes the selected
target: selection depends only on the weights' relative proportions. -/
theorem percentage_selection_scale_invariant
    (rname : String) (targets : List Target) (tps : List ℚ)
    (request : ChatCompletionRequest) (g : RNG) (c : ℚ) (hc : 0 < c) :
    applyRoutingStrategy ⟨rname, .percentage (tps.map (fun p => c * p)), targets⟩ request g =
      applyRoutingStrategy ⟨rname, .percentage tps, targets⟩ request g := by
  unfold applyRoutingStrategy
  dsimp only
  rw [applyPercentageStrategy_scale rname targets
    (.percentage (tps.map (fun p => c * p))) (.percentage tps) tps request g c (ne_of_gt hc)]

/-- Witness for C10: doubling the weights 70/30 to 140/60 gives the
identical outcome for the concrete draw 80. -/
theorem percentage_selection_scale_invariant_witness :
    applyRoutingStrategy
        ⟨"p", .percentage ([70, 30].map (fun p => (2 : ℚ) * p)), [⟨"a", "pa"⟩, ⟨"b", "pb"⟩]⟩
        ⟨"router/p", [], false⟩ ⟨[80], []⟩ =
      applyRoutingStrategy ⟨"p", .percentage [70, 30], [⟨"a", "pa"⟩, ⟨"b", "pb"⟩]⟩
        ⟨"router/p", [], false⟩ ⟨[80], []⟩ :=
  percentage_selection_scale_invariant "p" [⟨"a", "pa"⟩, ⟨"b", "pb"⟩] [70, 30]
    ⟨"router/p", [], false⟩ ⟨[80], []⟩ 2 two_pos

/-! ### Claim theorems: executor accounting -/

/-- Provider attributed to a chat failure record: "unknown" until routing
resolved a target, then the target's provider through Python's falsy
`or`. -/
def resolvedFailProvider (routed : Except GatewayError Target) : String :=
  match routed with
  | .error _ => "unknown"
  | .ok t => pyOrStr (some t.provider) "unknown"

/-- Model attributed to a chat failure record: the request's model id
until routing resolved a target, then the target's model through Python's
falsy `or`. -/
def resolvedFailModel (routed : Except GatewayError Target) (requestModel : String) : String :=
  match routed with
  | .error _ => requestModel
  | .ok t => pyOrStr (some t.model) requestModel

/-- C2 (amended): with usage storage configured, every failing execution
writes exactly one usage record with zero token counts, `success=false`
and the error message, and re-raises the error unchanged; chat executions
attribute it to the resolved target's provider (or "unknown" when routing
failed or the provider is empty) and to the resolved target's model (or
the request's model id), while embeddings and image generation always
record provider "unknown" and the request's model id. -/
theorem executor_failure_accounting
    (engine : RoutingEngine) (models : List ModelDefinition) (providers : List String)
    (call : String → ChatCompletionRequest → Except GatewayError ChatCompletionResponse)
    (streamCall : String → ChatCompletionRequest → List StreamChunk × Option GatewayError)
    (ecall : String → EmbeddingRequest → Except GatewayError EmbeddingResponse)
    (icall : String → ImageGenerationRequest → Except GatewayError ImageGenerationResponse)
    (request : ChatCompletionRequest) (ereq : EmbeddingRequest)
    (ireq : ImageGenerationRequest) (g : RNG) :
    (∀ e, (executeChatCompletion engine models providers call true request g).1.result =
        .error e →
      (executeChatCompletion engine models providers call true request g).1.records =
        [failRecord (resolvedFailProvider (routeChatRequest engine models request g).1)
          (resolvedFailModel (routeChatRequest engine models request g).1 request.model)
          e.message]) ∧
    (∀ e, (executeStreamingChatCompletion engine models providers streamCall true request g).1.result =
        .error e →
      (executeStreamingChatCompletion engine models providers streamCall true request g).1.records =
        [failRecord (resolvedFailProvider (routeChatRequest engine models request g).1)
          (resolvedFailModel (routeChatRequest engine models request g).1 request.model)
          e.message]) ∧
    (∀ e, (executeEmbeddings models providers ecall true ereq).result = .error e →
      (executeEmbeddings models providers ecall true ereq).records =
        [failRecord "unknown" ereq.model e.message]) ∧
    (∀ e, (executeImageGeneration models providers icall true ireq).result = .error e →
      (executeImageGeneration models providers icall true ireq).records =
        [failRecord "unknown" ireq.model e.message]) ∧
    (∀ e, (routeChatRequest engine models request g).1 = .error e →
      (executeChatCompletion engine models providers call true request g).1.result =
        .error e) := by
  refine ⟨?_, ?_, ?_, ?_, ?_⟩
  · intro e he
    cases hroute : routeChatRequest engine models request g with
    | mk res g1 =>
      cases res with
      | error e0 =>
          simp only [executeChatCompletion, hroute] at he ⊢
          simp only [Except.error.injEq] at he
          subst he
          simp [resolvedFailProvider, resolvedFailModel, pyOrStr]
      | ok target =>
          simp only [executeChatCompletion, hroute] at he ⊢
          by_cases hpe : target.provider.isEmpty
          · simp only [hpe, if_true] at he ⊢
            simp only [Except.error.injEq] at he
            subst he
            simp [resolvedFailProvider, resolvedFailModel]
          · simp only [hpe, if_false, Bool.false_eq_true] at he ⊢
            by_cases hpc : providers.contains target.provider
            · simp only [hpc, if_true] at he ⊢
              cases hcall : call target.provider ⟨target.model, request.messages, request.stream⟩ with
              | error e0 =>
                  simp only [hcall] at he ⊢
                  simp only [Except.error.injEq] at he
                  subst he
                  simp [resolvedFailProvider, resolvedFailModel]
              | ok response =>
                  simp only [hcall] at he
                  exact absurd he (by simp)
            · simp only [hpc, if_false, Bool.false_eq_true] at he ⊢
              simp only [Except.error.injEq] at he
              subst he
              simp [resolvedFailProvider, resolvedFailModel]
  · intro e he
    cases hroute : routeChatRequest engine models request g with
    | mk res g1 =>
      cases res with
      | error e0 =>
          simp only [executeStreamingChatCompletion, hroute] at he ⊢
          simp only [Except.error.injEq] at he
          subst he
          simp [resolvedFailProvider, resolvedFailModel, pyOrStr]
      | ok target =>
          simp only [executeStreamingChatCompletion, hroute] at he ⊢
          by_cases hpe : target.provider.isEmpty
          · simp only [hpe, if_true] at he ⊢
            simp only [Except.error.injEq] at he
            subst he
            simp [resolvedFailProvider, resolvedFailModel]
          · simp only [hpe, if_false, Bool.false_eq_true] at he ⊢
            by_cases hpc : providers.contains target.provider
            · simp only [hpc, if_true] at he ⊢
              cases hst : streamCall target.provider ⟨target.model, request.messages, true⟩ with
              | mk chunks errOpt =>
                cases errOpt with
                | some e0 =>
                    simp only [hst] at he ⊢
                    simp only [Except.error.injEq] at he
                    subst he
                    simp [resolvedFailProvider, resolvedFailModel]
                | none =>
                    simp only [hst] at he
                    exact absurd he (by simp)
            · simp only [hpc, if_false, Bool.false_eq_true] at he ⊢
              simp only [Except.error.injEq] at he
              subst he
              simp [resolvedFailProvider, resolvedFailModel]
  · intro e he
    cases hlook : registryLookup models ereq.model with
    | none =>
        simp only [executeEmbeddings, hlook] at he ⊢
        simp only [Except.error.injEq] at he
        subst he
        simp [pyOrStr]
    | some mdef =>
        simp only [executeEmbeddings, hlook] at he ⊢
        by_cases hpc : providers.contains mdef.inference_provider.provider
        · simp only [hpc, if_true] at he ⊢
          cases hcall : ecall mdef.inference_provider.provider ereq with
          | error e0 =>
              simp only [hcall] at he ⊢
              simp only [Except.error.injEq] at he
              subst he
              simp [pyOrStr]
          | ok response =>
              simp only [hcall] at he
              exact absurd he (by simp)
        · simp only [hpc, if_false, Bool.false_eq_true] at he ⊢
          simp only [Except.error.injEq] at he
          subst he
          simp [pyOrStr]
  · intro e he
    cases hlook : registryLookup models ireq.model with
    | none =>
        simp only [executeImageGeneration, hlook] at he ⊢
        simp only [Except.error.injEq] at he
        subst he
        simp [pyOrStr]
    | some mdef =>
        simp only [executeImageGeneration, hlook] at he ⊢
        by_cases hpc : providers.contains mdef.inference_provider.provider
        · simp only [hpc, if_true] at he ⊢
          cases hcall : icall mdef.inference_provider.provider ireq with
          | error e0 =>
              simp only [hcall] at he ⊢
              simp only [Except.error.injEq] at he
              subst he
              simp [pyOrStr]
          | ok response =>
              simp only [hcall] at he
              exact absurd he (by simp)
        · simp only [hpc, if_false, Bool.false_eq_true] at he ⊢
          simp only [Except.error.injEq] at he
          subst he
          simp [pyOrStr]
  · intro e he
    cases hroute : routeChatRequest engine models request g with
    | mk res g1 =>
      rw [hroute] at he
      simp only at he
      subst he
      simp [executeChatCompletion, hroute]

/-- Witness for C2: a request for an unknown model fails routing and the
single failure record carries "unknown" as provider, the request's model
id, zero tokens and the error message. -/
theorem executor_failure_accounting_witness :
    (executeChatCompletion ⟨[]⟩ [] [] (fun _ _ => .error (.providerError "boom")) true
        ⟨"m", [], false⟩ ⟨[], []⟩).1.records =
      [failRecord
        (resolvedFailProvider (routeChatRequest ⟨[]⟩ [] ⟨"m", [], false⟩ ⟨[], []⟩).1)
        (resolvedFailModel (routeChatRequest ⟨[]⟩ [] ⟨"m", [], false⟩ ⟨[], []⟩).1 "m")
        (GatewayError.modelNotFoundError ("Model not found: " ++ "m")).message] :=
  (executor_failure_accounting ⟨[]⟩ [] [] (fun _ _ => .error (.providerError "boom"))
    (fun _ _ => ([], none)) (fun _ _ => .error (.providerError "boom"))
    (fun _ _ => .error (.providerError "boom")) ⟨"m", [], false⟩ ⟨"m", []⟩ ⟨"m", "x"⟩
    ⟨[], []⟩).1 (.modelNotFoundError ("Model not found: " ++ "m")) rfl

/-- C2 counterexample to the claim as stated: when routing fails before a
target exists, the failure record's model is the request's model id, not
"unknown". -/
theorem executor_failure_unknown_model_counterexample :
    (executeChatCompletion ⟨[]⟩ [] [] (fun _ _ => .error (.providerError "boom")) true
        ⟨"mymodel", [], false⟩ ⟨[], []⟩).1.result =
      .error (.modelNotFoundError ("Model not found: " ++ "mymodel")) ∧
    (executeChatCompletion ⟨[]⟩ [] [] (fun _ _ => .error (.providerError "boom")) true
        ⟨"mymodel", [], false⟩ ⟨[], []⟩).1.records.map (fun r => r.model) = ["mymodel"] ∧
    "mymodel" ≠ "unknown" :=
  ⟨rfl, rfl, by decide⟩

/-- C4 (amended): with usage storage configured, a successful
non-streaming chat or embeddings execution records exactly one usage row
with the provider-reported counts when the response carries usage and
records nothing at all otherwise; successful streaming chat and image
generation always record exactly one row built from the word-count
estimates. -/
theorem executor_success_accounting
    (engine : RoutingEngine) (models : List ModelDefinition) (providers : List String)
    (call : String → ChatCompletionRequest → Except GatewayError ChatCompletionResponse)
    (streamCall : String → ChatCompletionRequest → List StreamChunk × Option GatewayError)
    (ecall : String → EmbeddingRequest → Except GatewayError EmbeddingResponse)
    (icall : String → ImageGenerationRequest → Except GatewayError ImageGenerationResponse)
    (request : ChatCompletionRequest) (ereq : EmbeddingRequest)
    (ireq : ImageGenerationRequest) (g : RNG) :
    (∀ target response, (routeChatRequest engine models request g).1 = .ok target →
      (executeChatCompletion engine models providers call true request g).1.result =
        .ok response →
      (executeChatCompletion engine models providers call true request g).1.records =
        (match response.usage with
         | some u => [⟨target.provider, target.model, u.prompt_tokens,
             u.completion_tokens, u.total_tokens, true, none⟩]
         | none => [])) ∧
    (∀ target, (routeChatRequest engine models request g).1 = .ok target →
      (executeStreamingChatCompletion engine models providers streamCall true request g).1.result =
        .ok () →
      (executeStreamingChatCompletion engine models providers streamCall true request g).1.records =
        [⟨target.provider, target.model, streamInputTokens request,
          ((streamCall target.provider ⟨target.model, request.messages, true⟩).1.map
            chunkOutputTokens).sum,
          streamInputTokens request +
            ((streamCall target.provider ⟨target.model, request.messages, true⟩).1.map
              chunkOutputTokens).sum, true, none⟩]) ∧
    (∀ mdef response, registryLookup models ereq.model = some mdef →
      (executeEmbeddings models providers ecall true ereq).result = .ok response →
      (executeEmbeddings models providers ecall true ereq).records =
        (match response.usage with
         | some u => [⟨mdef.inference_provider.provider, ereq.model, u.prompt_tokens, 0,
             u.total_tokens, true, none⟩]
         | none => [])) ∧
    (∀ mdef response, registryLookup models ireq.model = some mdef →
      (executeImageGeneration models providers icall true ireq).result = .ok response →
      (executeImageGeneration models providers icall true ireq).records =
        [⟨mdef.inference_provider.provider, ireq.model, wordCount ireq.prompt / 3, 0,
          wordCount ireq.prompt / 3, true, none⟩]) := by
  refine ⟨?_, ?_, ?_, ?_⟩
  · intro target response hroute1 hok
    cases hroute : routeChatRequest engine models request g with
    | mk res g1 =>
      rw [hroute] at hroute1
      simp only at hroute1
      subst hroute1
      simp only [executeChatCompletion, hroute] at hok ⊢
      by_cases hpe : target.provider.isEmpty
      · simp only [hpe, if_true] at hok
        exact absurd hok (by simp)
      · simp only [hpe, if_false, Bool.false_eq_true] at hok ⊢
        by_cases hpc : providers.contains target.provider
        · simp only [hpc, if_true] at hok ⊢
          cases hcall : call target.provider ⟨target.model, request.messages, request.stream⟩ with
          | error e0 =>
              simp only [hcall] at hok
              exact absurd hok (by simp)
          | ok resp0 =>
              simp only [hcall] at hok ⊢
              simp only [Except.ok.injEq] at hok
              subst hok
              rfl
        · simp only [hpc, if_false, Bool.false_eq_true] at hok
          exact absurd hok (by simp)
  · intro target hroute1 hok
    cases hroute : routeChatRequest engine models request g with
    | mk res g1 =>
      rw [hroute] at hroute1
      simp only at hroute1
      subst hroute1
      simp only [executeStreamingChatCompletion, hroute] at hok ⊢
      by_cases hpe : target.provider.isEmpty
      · simp only [hpe, if_true] at hok
        exact absurd hok (by simp)
      · simp only [hpe, if_false, Bool.false_eq_true] at hok ⊢
        by_cases hpc : providers.contains target.provider
        · simp only [hpc, if_true] at hok ⊢
          cases hst : streamCall target.provider ⟨target.model, request.messages, true⟩ with
          | mk chunks errOpt =>
            cases errOpt with
            | some e0 =>
                simp only [hst] at hok
                exact absurd hok (by simp)
            | none =>
                simp only [hst] at hok ⊢
        · simp only [hpc, if_false, Bool.false_eq_true] at hok
          exact absurd hok (by simp)
  · intro mdef response hlook1 hok
    simp only [executeEmbeddings, hlook1] at hok ⊢
    by_cases hpc : providers.contains mdef.inference_provider.provider
    · simp only [hpc, if_true] at hok ⊢
      cases hcall : ecall mdef.inference_provider.provider ereq with
      | error e0 =>
          simp only [hcall] at hok
          exact absurd hok (by simp)
      | ok resp0 =>
          simp only [hcall] at hok ⊢
          simp only [Except.ok.injEq] at hok
          subst hok
          rfl
    · simp only [hpc, if_false, Bool.false_eq_true] at hok
      exact absurd hok (by simp)
  · intro mdef response hlook1 hok
    simp only [executeImageGeneration, hlook1] at hok ⊢
    by_cases hpc : providers.contains mdef.inference_provider.provider
    · simp only [hpc, if_true] at hok ⊢
      cases hcall : icall mdef.inference_provider.provider ireq with
      | error e0 =>
          simp only [hcall] at hok
          exact absurd hok (by simp)
      | ok resp0 =>
          simp only [hcall] at hok ⊢
    · simp only [hpc, if_false, Bool.false_eq_true] at hok
      exact absurd hok (by simp)

/-- Witness for C4: a successful chat call whose response carries usage
(3, 5, 8) writes exactly that one success record. -/
theorem executor_success_accounting_witness :
    (executeChatCompletion ⟨[]⟩ [⟨"m", ⟨"openai", "gpt"⟩⟩] ["openai"]
        (fun _ _ => .ok ⟨some ⟨3, 5, 8⟩⟩) true ⟨"m", [], false⟩ ⟨[], []⟩).1.records =
      (match (some (Usage.mk 3 5 8) : Option Usage) with
       | some u => [⟨"openai", "gpt", u.prompt_tokens, u.completion_tokens,
           u.total_tokens, true, none⟩]
       | none => []) :=
  (executor_success_accounting ⟨[]⟩ [⟨"m", ⟨"openai", "gpt"⟩⟩] ["openai"]
    (fun _ _ => .ok ⟨some ⟨3, 5, 8⟩⟩) (fun _ _ => ([], none))
    (fun _ _ => .error (.providerError "boom")) (fun _ _ => .error (.providerError "boom"))
    ⟨"m", [], false⟩ ⟨"m", []⟩ ⟨"m", "x"⟩ ⟨[], []⟩).1 ⟨"gpt", "openai"⟩ ⟨some ⟨3, 5, 8⟩⟩
    rfl rfl

/-- C4 counterexample to the claim as stated: a successful chat call whose
response carries no usage writes no success record at all; the record is
skipped, not approximated. -/
theorem executor_success_record_skipped_counterexample :
    (executeChatCompletion ⟨[]⟩ [⟨"m", ⟨"openai", "gpt"⟩⟩] ["openai"]
        (fun _ _ => .ok ⟨none⟩) true ⟨"m", [], false⟩ ⟨[], []⟩).1.result = .ok ⟨none⟩ ∧
    (executeChatCompletion ⟨[]⟩ [⟨"m", ⟨"openai", "gpt"⟩⟩] ["openai"]
        (fun _ _ => .ok ⟨none⟩) true ⟨"m", [], false⟩ ⟨[], []⟩).1.records = [] :=
  ⟨rfl, rfl⟩

/-! ### Claim theorems: Anthropic error classification -/

/-- C9: every upstream failure message is classified by inspection of its
lowercased text: credential vocabulary gives `AuthenticationError`,
otherwise throttling vocabulary gives `RateLimitExceededError`, and
everything else gives `ProviderError`; the adapter's chat completion
wrapper therefore never lets an upstream exception escape unclassified. -/
theorem anthropic_error_classification (msg : String) :
    (classifyAnthropicError msg =
        .authenticationError ("Anthropic authentication error: " ++ msg) ↔
      (containsSub (strLower msg) "authentication"
        || containsSub (strLower msg) "api key") = true) ∧
    (classifyAnthropicError msg =
        .rateLimitExceededError ("Anthropic rate limit exceeded: " ++ msg) ↔
      ((containsSub (strLower msg) "authentication"
          || containsSub (strLower msg) "api key") = false ∧
        containsSub (strLower msg) "rate limit" = true)) ∧
    (classifyAnthropicError msg = .providerError ("Anthropic error: " ++ msg) ↔
      ((containsSub (strLower msg) "authentication"
          || containsSub (strLower msg) "api key") = false ∧
        containsSub (strLower msg) "rate limit" = false)) ∧
    (∃ m, classifyAnthropicError msg = .authenticationError m ∨
      classifyAnthropicError msg = .rateLimitExceededError m ∨
      classifyAnthropicError msg = .providerError m) ∧
    (∀ e : String, ∃ m,
      anthropicChatCompletionResult (α := Unit) (.error e) = .error (.authenticationError m) ∨
      anthropicChatCompletionResult (α := Unit) (.error e) = .error (.rateLimitExceededError m) ∨
      anthropicChatCompletionResult (α := Unit) (.error e) = .error (.providerError m)) := by
  have hclass : ∀ s : String, ∃ m, classifyAnthropicError s = .authenticationError m ∨
      classifyAnthropicError s = .rateLimitExceededError m ∨
      classifyAnthropicError s = .providerError m := by
    intro s
    unfold classifyAnthropicError
    cases hA : (containsSub (strLower s) "authentication" || containsSub (strLower s) "api key")
    · cases hR : containsSub (strLower s) "rate limit"
      · exact ⟨"Anthropic error: " ++ s, .inr (.inr (by simp [hA, hR]))⟩
      · exact ⟨"Anthropic rate limit exceeded: " ++ s, .inr (.inl (by simp [hA, hR]))⟩
    · exact ⟨"Anthropic authentication error: " ++ s, .inl (by simp [hA])⟩
  refine ⟨?_, ?_, ?_, hclass msg, ?_⟩
  · unfold classifyAnthropicError
    cases hA : (containsSub (strLower msg) "authentication"
        || containsSub (strLower msg) "api key")
    · cases hR : containsSub (strLower msg) "rate limit" <;> simp [hA, hR]
    · simp [hA]
  · unfold classifyAnthropicError
    cases hA : (containsSub (strLower msg) "authentication"
        || containsSub (strLower msg) "api key")
    · cases hR : containsSub (strLower msg) "rate limit" <;> simp [hA, hR]
    · simp [hA]
  · unfold classifyAnthropicError
    cases hA : (containsSub (strLower msg) "authentication"
        || containsSub (strLower msg) "api key")
    · cases hR : containsSub (strLower msg) "rate limit" <;> simp [hA, hR]
    · simp [hA]
  · intro e
    obtain ⟨m, hm⟩ := hclass e
    exact ⟨m, by
      rcases hm with hm | hm | hm
      · exact .inl (by simp [anthropicChatCompletionResult, hm])
      · exact .inr (.inl (by simp [anthropicChatCompletionResult, hm]))
      · exact .inr (.inr (by simp [anthropicChatCompletionResult, hm]))⟩

end AIGateway
